import Mathlib

/-!
Verification development for the kubevirt-wol core (Wake-on-LAN operator for
KubeVirt).  The Go sources are shallowly embedded as pure Lean functions:

* `parseMagicPacket`     — internal/wol/packet.go `parseMagicPacket`
* `isBroadcastMAC`, `processEthernetFrame` — internal/wol/raw_listener.go
* `normalizeMACAddress`, `refreshMapping`, `refreshAllConfigs` —
  internal/wol/mapper.go and the controller's `refreshAllConfigs`
* `checkDuplicate`, `recordEvent`, `reportWOLEvent` — internal/wol/aggregator.go
* `validateConfig`, `reconcileValidation` — the WolConfig controller
* `startVM`              — the KubeVirt `VMStarter`

Machine integers are embedded as `Nat`/`Int`; Go maps are embedded as
association lists whose assignment overwrites the entry for an existing key;
the Kubernetes client is embedded as a pure list of cluster VMs; wall-clock
time is an explicit `Nat` parameter (seconds); outcomes of external calls
(`VMStarter.StartVM`, `client.Patch`) are oracle parameters.
-/

namespace KubevirtWol

/-! ### Packet decoder (internal/wol/packet.go) -/

/-- Hex digit character produced by Go's `%02x` verb (lowercase). -/
def hexDigit (n : Nat) : Char :=
  if n < 10 then Char.ofNat (48 + n) else Char.ofNat (87 + n)

/-- The two characters Go's `%02x` prints for one byte. -/
def byteHexChars (b : Nat) : List Char :=
  [hexDigit (b / 16), hexDigit (b % 16)]

/-- Embedding of `fmt.Sprintf("%02x:%02x:%02x:%02x:%02x:%02x", ...)` used by
`parseMagicPacket` to render the MAC. -/
def formatMAC6 (b0 b1 b2 b3 b4 b5 : Nat) : String :=
  ⟨byteHexChars b0 ++ ':' :: (byteHexChars b1 ++ ':' :: (byteHexChars b2 ++
    ':' :: (byteHexChars b3 ++ ':' :: (byteHexChars b4 ++ ':' :: byteHexChars b5))))⟩

/-- Embedding of `parseMagicPacket` (internal/wol/packet.go): at least 102
bytes, 6 bytes of `0xFF`, then 16 repetitions of the MAC; the Go loop
`for i := 1; i < 16` compares repetition `i` (offset `6 + i*6`) against the
first repetition at bytes 6..11. Returns the formatted MAC on success. -/
def parseMagicPacket (packet : List Nat) : Option String :=
  if packet.length < 102 then none
  else if (List.range 6).all (fun i => packet.getD i 0 == 0xFF) then
    if (List.range 15).all (fun i =>
        (List.range 6).all (fun j =>
          packet.getD (6 + (i + 1) * 6 + j) 0 == packet.getD (6 + j) 0)) then
      some (formatMAC6 (packet.getD 6 0) (packet.getD 7 0) (packet.getD 8 0)
        (packet.getD 9 0) (packet.getD 10 0) (packet.getD 11 0))
    else none
  else none

/-- The validity condition stated by the specification for a magic packet:
length at least 102, six `0xFF` bytes, and each of the 15 later 6-byte groups
equal to the group at bytes 6..11. -/
def magicShape (b : List Nat) : Prop :=
  102 ≤ b.length ∧ (∀ i < 6, b.getD i 0 = 0xFF) ∧
    ∀ k < 15, ∀ j < 6, b.getD (6 + (k + 1) * 6 + j) 0 = b.getD (6 + j) 0

instance (b : List Nat) : Decidable (magicShape b) := by
  unfold magicShape; infer_instance

/-- Lowercase hexadecimal digit character test. -/
def isLowerHexDigit (c : Char) : Bool :=
  (48 ≤ c.toNat && c.toNat ≤ 57) || (97 ≤ c.toNat && c.toNat ≤ 102)

/-- Numeric value of a lowercase hex digit character. -/
def hexVal (c : Char) : Nat :=
  if c.toNat ≤ 57 then c.toNat - 48 else c.toNat - 87

/-! ### Raw Ethernet frame processing (internal/wol/raw_listener.go) -/

/-- Embedding of `isBroadcastMAC`: true iff exactly 6 bytes, all `0xFF`. -/
def isBroadcastMAC (b : List Nat) : Bool :=
  b.length == 6 && b.all (fun x => x == 0xFF)

/-- Tail of `processEthernetFrame` after the optional VLAN strip: reject
EtherTypes other than `0x0842`, reject non-broadcast destinations, then
decode the payload as a magic packet. -/
def processInnerFrame (dst : List Nat) (ethTy : Nat) (payload : List Nat) :
    Option String :=
  if ethTy ≠ 0x0842 then none
  else if !isBroadcastMAC dst then none
  else parseMagicPacket payload

/-- Embedding of `RawListener.processEthernetFrame`: 14-byte Ethernet header,
big-endian EtherType at bytes 12..13; an outer `0x8100` (802.1Q) tag strips 4
bytes and re-reads the inner EtherType (frames with a short VLAN remainder are
dropped). Returns the MAC handed to the packet handler, if any. -/
def processEthernetFrame (frame : List Nat) : Option String :=
  let dstMAC := frame.take 6
  let ethTy := 256 * frame.getD 12 0 + frame.getD 13 0
  let payload := frame.drop 14
  if ethTy = 0x8100 then
    if payload.length < 4 then none
    else processInnerFrame dstMAC (256 * payload.getD 2 0 + payload.getD 3 0)
      (payload.drop 4)
  else processInnerFrame dstMAC ethTy payload

/-- The effective (EtherType, payload) pair the specification speaks about:
the inner EtherType and the remaining payload after stripping a well-formed
802.1Q tag, otherwise the outer values. -/
def effectiveFrame (frame : List Nat) : Nat × List Nat :=
  let ethTy := 256 * frame.getD 12 0 + frame.getD 13 0
  let payload := frame.drop 14
  if ethTy = 0x8100 ∧ 4 ≤ payload.length then
    (256 * payload.getD 2 0 + payload.getD 3 0, payload.drop 4)
  else (ethTy, payload)

/-! ### MAC mapper and controller data model
(api/v1beta1/wolconfig_types.go, internal/wol/mapper.go) -/

/-- Runtime VM binding stored in the mapping table (mapper.go `VMInfo`). -/
structure VMInfo where
  name : String
  ns : String
deriving DecidableEq, Repr

/-- One explicit MAC→VM mapping (`MACVMMapping`). -/
structure MACVMMapping where
  macAddress : String
  vmName : String
  ns : String
deriving DecidableEq, Repr

/-- The `WolConfig` spec fields used by validation and discovery.  Go's
`DiscoveryMode` is a string type; the label selector is embedded as its
`matchLabels` map (selector matching itself is the external Kubernetes
library; `matchExpressions` are not used by this repository's tests). -/
structure WolConfigSpec where
  discoveryMode : String
  namespaceSelectors : List String
  vmSelector : Option (List (String × String))
  explicitMappings : List MACVMMapping
  wolPorts : List Int
  cacheTTL : Int
deriving DecidableEq, Repr

/-- A cluster VirtualMachine as the mapper sees it: identity, labels, and the
`macAddress` fields of its template's interfaces (empty string = unset). -/
structure ClusterVM where
  name : String
  ns : String
  labels : List (String × String)
  macs : List String
deriving DecidableEq, Repr

/-- Embedding of `normalizeMACAddress` = `strings.ToLower(strings.TrimSpace(mac))`:
surrounding whitespace stripped, then lowercased, expressed on the character
list (MACs are ASCII, where Go's Unicode case mapping agrees with
`Char.toLower`). -/
def normalizeMACAddress (mac : String) : String :=
  ⟨(((mac.data.dropWhile Char.isWhitespace).reverse.dropWhile
      Char.isWhitespace).reverse).map Char.toLower⟩

/-- Association-list lookup standing in for a Go map read. -/
def assocFind : List (String × α) → String → Option α
  | [], _ => none
  | (k', v') :: rest, k => if k' = k then some v' else assocFind rest k

/-- Go map assignment `m[k] = v`: overwrite the entry if the key is present,
otherwise add it. -/
def assocSet : List (String × α) → String → α → List (String × α)
  | [], k, v => [(k, v)]
  | (k', v') :: rest, k, v =>
    if k' = k then (k, v) :: rest else (k', v') :: assocSet rest k v

/-- Embedding of `extractMACsFromVMs`: insert every non-empty interface MAC of
every listed VM, normalized, mapping to the VM's identity. -/
def extractMACsFromVMs (vms : List ClusterVM) (mapping : List (String × VMInfo)) :
    List (String × VMInfo) :=
  vms.foldl (fun acc vm =>
    vm.macs.foldl (fun acc mac =>
      if mac ≠ "" then
        assocSet acc (normalizeMACAddress mac) ⟨vm.name, vm.ns⟩
      else acc) acc) mapping

/-- Kubernetes `matchLabels` semantics: every selector pair occurs among the
VM's labels. -/
def matchesLabels (vm : ClusterVM) (sel : List (String × String)) : Bool :=
  sel.all (fun p => vm.labels.contains p)

/-- The Kubernetes client's `List` of VirtualMachines, embedded as a pure
filter over the cluster (`nsFilter = none` lists across all namespaces). -/
def listVMs (cluster : List ClusterVM) (nsFilter : Option String)
    (sel : Option (List (String × String))) : List ClusterVM :=
  cluster.filter (fun vm =>
    (match nsFilter with
     | none => true
     | some ns => vm.ns == ns) &&
    (match sel with
     | none => true
     | some s => matchesLabels vm s))

/-- Embedding of `discoverAllVMs`: empty namespace set lists every namespace,
otherwise each listed namespace in turn (later inserts overwrite earlier ones
for the same MAC). -/
def discoverAllVMs (cluster : List ClusterVM) (config : WolConfigSpec)
    (mapping : List (String × VMInfo)) : List (String × VMInfo) :=
  match config.namespaceSelectors with
  | [] => extractMACsFromVMs (listVMs cluster none none) mapping
  | nss => nss.foldl (fun acc ns =>
      extractMACsFromVMs (listVMs cluster (some ns) none) acc) mapping

/-- Embedding of `discoverVMsWithSelector`: fails when `vmSelector` is nil,
otherwise lists matching VMs across all or each selected namespace. -/
def discoverVMsWithSelector (cluster : List ClusterVM) (config : WolConfigSpec)
    (mapping : List (String × VMInfo)) : Except String (List (String × VMInfo)) :=
  match config.vmSelector with
  | none => .error "VMSelector is nil in LabelSelector mode"
  | some sel =>
    match config.namespaceSelectors with
    | [] => .ok (extractMACsFromVMs (listVMs cluster none (some sel)) mapping)
    | nss => .ok (nss.foldl (fun acc ns =>
        extractMACsFromVMs (listVMs cluster (some ns) (some sel)) acc) mapping)

/-- Embedding of `MACMapper.RefreshMapping`: rebuild the table from scratch
according to the configured discovery mode (`default` in the Go switch is the
`All` mode). -/
def refreshMapping (cluster : List ClusterVM) (config : WolConfigSpec) :
    Except String (List (String × VMInfo)) :=
  if config.discoveryMode = "Explicit" then
    .ok (config.explicitMappings.foldl (fun acc m =>
      assocSet acc (normalizeMACAddress m.macAddress) ⟨m.vmName, m.ns⟩) [])
  else if config.discoveryMode = "LabelSelector" then
    discoverVMsWithSelector cluster config []
  else
    .ok (discoverAllVMs cluster config [])

/-- Embedding of `MACMapper.Lookup`: normalize the queried MAC, then read the
table. -/
def mapperLookup (mapping : List (String × VMInfo)) (mac : String) : Option VMInfo :=
  assocFind mapping (normalizeMACAddress mac)

/-- Deduplicating namespace collection of `refreshAllConfigs`: the Go code
accumulates namespaces in a `map[string]bool` and converts it to a slice;
iteration order of a Go map is arbitrary, fixed here to first-insertion
order (the claims checked below do not depend on it). -/
def collectNamespaces (configs : List WolConfigSpec) : List String :=
  configs.foldl (fun acc c =>
    if c.discoveryMode = "All" then
      c.namespaceSelectors.foldl (fun acc ns =>
        if acc.contains ns then acc else acc ++ [ns]) acc
    else acc) []

/-- Explicit-mapping collection of `refreshAllConfigs`. -/
def collectExplicit (configs : List WolConfigSpec) : List MACVMMapping :=
  configs.foldl (fun acc c =>
    if c.discoveryMode = "Explicit" then acc ++ c.explicitMappings else acc) []

/-- Embedding of `WolConfigReconciler.refreshAllConfigs`: build one synthetic
merged config — mode `All` with the union of namespace selectors, switched to
mode `Explicit` carrying the concatenated explicit mappings whenever any
exist — and refresh the global mapper from it.  LabelSelector configs are
refreshed into a temporary mapper whose result the Go code discards, so they
contribute nothing to the installed table. -/
def refreshAllConfigs (cluster : List ClusterVM) (configs : List WolConfigSpec) :
    Except String (List (String × VMInfo)) :=
  let allNamespaces := collectNamespaces configs
  let allExplicit := collectExplicit configs
  let merged : WolConfigSpec :=
    { discoveryMode := if allExplicit ≠ [] then "Explicit" else "All"
      namespaceSelectors := allNamespaces
      vmSelector := none
      explicitMappings := allExplicit
      wolPorts := []
      cacheTTL := 0 }
  refreshMapping cluster merged

/-! ### Aggregator (internal/wol/aggregator.go)

The gRPC handler is embedded as a state-transition function.  Wall-clock time
(seconds) is an explicit parameter; `ProcessingTimeMs` (a wall-clock duration
stamped into every response) is not modelled.  The outcome of
`VMStarter.StartVM` — an external call through the VMStarter interface — is
an oracle `startVMErr` giving the error message, if any, for a (namespace,
name) pair. -/

/-- The gRPC response statuses used by the aggregator. -/
inductive ResponseStatus where
  | vmStartInitiated
  | vmNotFound
  | duplicate
  | error
deriving DecidableEq, Repr

/-- VM info attached to a response (proto `VMInfo`); `currentState` is the Go
zero value `""` when not set. -/
structure RespVMInfo where
  name : String
  ns : String
  currentState : String
deriving DecidableEq, Repr

/-- A `WOLEventResponse`. -/
structure WOLEventResponse where
  status : ResponseStatus
  message : String
  vmInfo : Option RespVMInfo
  wasDuplicate : Bool
deriving DecidableEq, Repr

/-- A `WOLEvent` (fields not read by the aggregator logic are omitted). -/
structure WOLEvent where
  macAddress : String
  nodeName : String
deriving DecidableEq, Repr

/-- A global-dedupe entry (`dedupeEntry`); `lastResponse` is never nil on any
path that stores an entry, so it is embedded without an `Option`. -/
structure DedupeEntry where
  lastSeen : Nat
  count : Nat
  nodes : List String
  lastResponse : WOLEventResponse
deriving DecidableEq, Repr

/-- Aggregator state: the dedupe map plus the three Prometheus counters the
handler touches (`wol_packets_total`, `wol_errors_total`,
`wol_vm_started_total`). -/
structure AggState where
  dedupeMap : List (String × DedupeEntry)
  packetsTotal : Nat
  errorsTotal : Nat
  vmStartedTotal : Nat
deriving DecidableEq, Repr

/-- `dedupeDuration`: 10 seconds. -/
def dedupeDuration : Nat := 10

/-- Embedding of `Aggregator.checkDuplicate`: if an entry for the MAC is
younger than 10 s, bump its count, append the witnessing node, slide
`lastSeen` to now, and answer `DUPLICATE`, copying the VM info of the stored
first response.  (Go compares a signed duration; with `Nat` truncation a
clock running backwards also reads as `< 10`, matching Go, where a negative
duration is below the window too.) -/
def checkDuplicate (st : AggState) (ev : WOLEvent) (now : Nat) :
    AggState × Option WOLEventResponse :=
  match assocFind st.dedupeMap ev.macAddress with
  | some entry =>
    if now - entry.lastSeen < dedupeDuration then
      let entry' : DedupeEntry :=
        { lastSeen := now
          count := entry.count + 1
          nodes := entry.nodes ++ [ev.nodeName]
          lastResponse := entry.lastResponse }
      let resp : WOLEventResponse :=
        { status := .duplicate
          message := "Event already processed recently (seen on " ++
            toString entry'.count ++ " nodes)"
          vmInfo := entry.lastResponse.vmInfo
          wasDuplicate := true }
      ({ st with dedupeMap := assocSet st.dedupeMap ev.macAddress entry' },
        some resp)
    else (st, none)
  | none => (st, none)

/-- Embedding of `Aggregator.recordEvent`: store a fresh entry for the MAC. -/
def recordEvent (st : AggState) (ev : WOLEvent) (resp : WOLEventResponse)
    (now : Nat) : AggState :=
  { st with dedupeMap :=
      assocSet st.dedupeMap ev.macAddress ⟨now, 1, [ev.nodeName], resp⟩ }

/-- Embedding of `Aggregator.ReportWOLEvent`.  Returns the new state, the
response, and whether `VMStarter.StartVM` was invoked.  `table` is the
mapper's current mapping; `startVMErr ns name` is the outcome of the external
start call (`none` = success). -/
def reportWOLEvent (table : List (String × VMInfo))
    (startVMErr : String → String → Option String) (st : AggState)
    (ev : WOLEvent) (now : Nat) : AggState × WOLEventResponse × Bool :=
  let st := { st with packetsTotal := st.packetsTotal + 1 }
  match checkDuplicate st ev now with
  | (st', some resp) => (st', resp, false)
  | (st', none) =>
    match mapperLookup table ev.macAddress with
    | none =>
      let resp : WOLEventResponse :=
        { status := .vmNotFound
          message := "No VM configured for MAC " ++ ev.macAddress
          vmInfo := none
          wasDuplicate := false }
      (recordEvent st' ev resp now, resp, false)
    | some vmInfo =>
      match startVMErr vmInfo.ns vmInfo.name with
      | some e =>
        let st'' := { st' with errorsTotal := st'.errorsTotal + 1 }
        let resp : WOLEventResponse :=
          { status := .error
            message := "Failed to start VM: " ++ e
            vmInfo := some ⟨vmInfo.name, vmInfo.ns, ""⟩
            wasDuplicate := false }
        (recordEvent st'' ev resp now, resp, true)
      | none =>
        let st'' := { st' with vmStartedTotal := st'.vmStartedTotal + 1 }
        let resp : WOLEventResponse :=
          { status := .vmStartInitiated
            message := "VM start initiated successfully from node " ++ ev.nodeName
            vmInfo := some ⟨vmInfo.name, vmInfo.ns, "Starting"⟩
            wasDuplicate := false }
        (recordEvent st'' ev resp now, resp, true)

/-- Whether `checkDuplicate` classifies the event as a duplicate: an entry
for the MAC exists and is younger than the 10 s window. -/
def isDuplicateEvent (st : AggState) (ev : WOLEvent) (now : Nat) : Bool :=
  match assocFind st.dedupeMap ev.macAddress with
  | some entry => decide (now - entry.lastSeen < dedupeDuration)
  | none => false

/-- Arrival times whose consecutive gaps each lie inside the dedupe window of
the previous arrival (the first gap is measured from `last`). -/
def chainedWithin : Nat → List Nat → Prop
  | _, [] => True
  | last, t :: ts => t - last < dedupeDuration ∧ chainedWithin t ts

instance chainedWithinDec : (last : Nat) → (ts : List Nat) →
    Decidable (chainedWithin last ts)
  | _, [] => .isTrue trivial
  | last, t :: ts =>
    have : Decidable (chainedWithin t ts) := chainedWithinDec t ts
    inferInstanceAs (Decidable (_ ∧ _))

/-- A sequence of unary calls: each element is an event with its arrival
time; results pair each response with whether StartVM was invoked for it. -/
def runReports (table : List (String × VMInfo))
    (startVMErr : String → String → Option String) :
    AggState → List (WOLEvent × Nat) → AggState × List (WOLEventResponse × Bool)
  | st, [] => (st, [])
  | st, (ev, t) :: rest =>
    let r := reportWOLEvent table startVMErr st ev t
    let tail := runReports table startVMErr r.1 rest
    (tail.1, (r.2.1, r.2.2) :: tail.2)

/-- Number of reports in a result list that invoked StartVM. -/
def countStarts (results : List (WOLEventResponse × Bool)) : Nat :=
  (results.filter (fun r => r.2)).length

/-! ### Controller validation and the invalid-config reconcile path -/

/-- Embedding of `WolConfigReconciler.validateConfig`.  The Go function
mutates the config in place and returns on the first failing check; the
embedding returns the config as mutated so far together with the error, in
the source's check order: default mode, default ports, port range check,
default TTL, TTL sign check, per-mode requirements. -/
def validateConfig (c : WolConfigSpec) : WolConfigSpec × Option String :=
  let c := if c.discoveryMode = "" then { c with discoveryMode := "All" } else c
  let c := if c.wolPorts = [] then { c with wolPorts := [9] } else c
  match c.wolPorts.find? (fun p => p < 1 || p > 65535) with
  | some p => (c, some ("invalid WOL port: " ++ toString p ++ " (must be 1-65535)"))
  | none =>
    let c := if c.cacheTTL = 0 then { c with cacheTTL := 300 } else c
    if c.cacheTTL < 0 then
      (c, some ("invalid cache TTL: " ++ toString c.cacheTTL ++ " (must be >= 0)"))
    else if c.discoveryMode = "LabelSelector" && c.vmSelector = none then
      (c, some "VMSelector is required for LabelSelector discovery mode")
    else if c.discoveryMode = "Explicit" && c.explicitMappings = [] then
      (c, some "ExplicitMappings is required for Explicit discovery mode")
    else (c, none)

/-- A `ctrl.Result` together with whether the reconciler returned a non-nil
error. -/
structure CtrlResult where
  requeueAfterSec : Nat
  hasError : Bool
deriving DecidableEq, Repr

/-- controller-runtime's documented scheduling rule (external framework): a
work item is requeued — rate-limited on error — iff the reconciler returned a
non-nil error or asked for a requeue via the result. -/
def ctrlRequeues (r : CtrlResult) : Bool :=
  r.hasError || r.requeueAfterSec != 0

/-- Outcome of the validation step at the top of `Reconcile`. -/
inductive ReconcileStep where
  /-- Validation failed: the Ready condition written (status, reason) and the
  returned `(ctrl.Result{}, err)`. -/
  | invalidConfig (readyStatus : Bool) (reason : String) (res : CtrlResult)
  /-- Validation passed; reconcile continues with the defaulted config. -/
  | proceed (validated : WolConfigSpec)
deriving DecidableEq, Repr

/-- Embedding of the validation branch of `WolConfigReconciler.Reconcile`
(lines 92–99): on a validation error the controller writes
`Ready=False/Reason=InvalidConfig` and returns `ctrl.Result{}` (no
RequeueAfter) together with the non-nil validation error. -/
def reconcileValidation (c : WolConfigSpec) : ReconcileStep :=
  match validateConfig c with
  | (_, some _) => .invalidConfig false "InvalidConfig" ⟨0, true⟩
  | (c', none) => .proceed c'

/-! ### VM starter (`VMStarter.StartVM`) -/

/-- KubeVirt run strategies referenced by `StartVM`. -/
inductive RunStrategy where
  | always
  | once
  | rerunOnFailure
  | manual
  | halted
deriving DecidableEq, Repr

/-- The VirtualMachine fields `StartVM` reads: `spec.runStrategy`,
`spec.running` (deprecated), `status.ready`, `status.printableStatus`. -/
structure KVVM where
  runStrategy : Option RunStrategy
  running : Option Bool
  statusReady : Bool
  printableStatus : String
deriving DecidableEq, Repr

/-- A patch issued to the cluster by `StartVM`. -/
inductive PatchOp where
  | setRunStrategy (rs : RunStrategy)
  | setRunning (b : Bool)
deriving DecidableEq, Repr

/-- Observable outcome of one `StartVM` call: returned error (if any),
patches issued (in order), whether the restore goroutine was spawned, and the
deltas to `wol_vm_started_total` / `wol_errors_total` that `StartVM` itself
applies. -/
structure StartVMTrace where
  result : Option String
  patches : List PatchOp
  restoreSpawned : Bool
  startedInc : Nat
  errorsInc : Nat
deriving DecidableEq, Repr

/-- Embedding of `VMStarter.StartVM`.  `get` is the outcome of the client
`Get` (the VM as fetched, or an error); `patchErr` is the outcome of a client
`Patch`, should one be issued. -/
def startVM (get : Except String KVVM) (patchErr : Option String) : StartVMTrace :=
  match get with
  | .error e =>
    { result := some ("failed to get VM: " ++ e), patches := [],
      restoreSpawned := false, startedInc := 0, errorsInc := 1 }
  | .ok vm =>
    match vm.runStrategy with
    | some rs =>
      let isRunning := vm.statusReady ||
        (vm.printableStatus ≠ "" &&
          (vm.printableStatus == "Running" || vm.printableStatus == "Starting"))
      if isRunning then
        { result := none, patches := [], restoreSpawned := false,
          startedInc := 0, errorsInc := 0 }
      else
        let needsRestore := rs = .once ∨ rs = .rerunOnFailure ∨ rs = .manual
        if needsRestore then
          match patchErr with
          | some e =>
            { result := some ("failed to start VM: " ++ e),
              patches := [.setRunStrategy .always], restoreSpawned := false,
              startedInc := 0, errorsInc := 1 }
          | none =>
            { result := none, patches := [.setRunStrategy .always],
              restoreSpawned := true, startedInc := 1, errorsInc := 0 }
        else if rs ≠ .always then
          match patchErr with
          | some e =>
            { result := some ("failed to start VM: " ++ e),
              patches := [.setRunStrategy .always], restoreSpawned := false,
              startedInc := 0, errorsInc := 1 }
          | none =>
            { result := none, patches := [.setRunStrategy .always],
              restoreSpawned := false, startedInc := 1, errorsInc := 0 }
        else
          { result := none, patches := [], restoreSpawned := false,
            startedInc := 0, errorsInc := 0 }
    | none =>
      match vm.running with
      | some true =>
        { result := none, patches := [], restoreSpawned := false,
          startedInc := 0, errorsInc := 0 }
      | _ =>
        match patchErr with
        | some e =>
          { result := some ("failed to start VM: " ++ e),
            patches := [.setRunning true], restoreSpawned := false,
            startedInc := 0, errorsInc := 1 }
        | none =>
          { result := none, patches := [.setRunning true],
            restoreSpawned := false, startedInc := 1, errorsInc := 0 }

/-! ### Node agent port binding (cmd/agent/main.go, internal/wol/agent.go) -/

/-- Digit run to a number, as `strconv.Atoi` reads it (ports are far from
overflowing Go's int). -/
def digitsToNat (cs : List Char) : Option Nat :=
  if cs = [] then none
  else cs.foldl (fun acc c =>
    match acc with
    | none => none
    | some n => if c.isDigit then some (n * 10 + (c.toNat - 48)) else none)
    (some 0)

/-- Embedding of `strconv.Atoi` on a token's characters: optional sign, then
at least one digit, nothing else. -/
def atoiChars (cs : List Char) : Option Int :=
  match cs with
  | '+' :: rest => (digitsToNat rest).map (fun n => (n : Int))
  | '-' :: rest => (digitsToNat rest).map (fun n => -(n : Int))
  | _ => (digitsToNat cs).map (fun n => (n : Int))

/-- `strings.TrimSpace` on a token's characters. -/
def trimChars (cs : List Char) : List Char :=
  ((cs.dropWhile Char.isWhitespace).reverse.dropWhile Char.isWhitespace).reverse

/-- Embedding of `parsePorts` over the comma-split tokens of the `--ports`
flag: trim, skip empty tokens, parse the integer, range-check; an empty
result defaults to `[9]`. -/
def parsePorts (tokens : List String) : Except String (List Int) :=
  match tokens.foldl (fun (acc : Except String (List Int)) part =>
    match acc with
    | .error e => .error e
    | .ok ps =>
      let part := trimChars part.data
      if part = [] then .ok ps
      else
        match atoiChars part with
        | none => .error ("invalid port " ++ String.mk part)
        | some p =>
          if p < 1 || p > 65535 then
            .error ("port " ++ toString p ++ " out of range (must be 1-65535)")
          else .ok (ps ++ [p])) (.ok []) with
  | .error e => .error e
  | .ok [] => .ok [9]
  | .ok ps => .ok ps

/-- Embedding of the port selection in `main` plus `Agent.Start`: the agent
constructs ONE agent on `ports[0]` (`port := ports[0] // Use first port for
now`, with a `TODO: multi-port support` comment) and binds a single UDP
socket on that port. -/
def agentBoundUDPPorts (tokens : List String) : Except String (List Int) :=
  match parsePorts tokens with
  | .error e => .error e
  | .ok ps => .ok [ps.headD 9]

/-- The socket options `Agent.configureSocket` sets on the one bound UDP
socket. -/
def agentSocketOptions : List String :=
  ["SO_REUSEADDR", "SO_REUSEPORT", "SO_BROADCAST", "IP_PKTINFO"]

/-! ### Concrete inputs used by witnesses and counterexamples -/

/-- The sample MAC `52:54:00:12:34:56` as bytes. -/
def sampleMACBytes : List Nat := [0x52, 0x54, 0x00, 0x12, 0x34, 0x56]

/-- A well-formed 102-byte magic packet for the sample MAC. -/
def samplePacket : List Nat :=
  List.replicate 6 0xFF ++ (List.replicate 16 sampleMACBytes).flatten

/-- A broadcast Ethernet frame with EtherType `0x0842` carrying
`samplePacket`. -/
def sampleFrame : List Nat :=
  List.replicate 6 0xFF ++ [1, 2, 3, 4, 5, 6] ++ [0x08, 0x42] ++ samplePacket

/-- The cluster of scenario S1: one VM `default/test-vm` carrying the sample
MAC. -/
def sampleCluster : List ClusterVM :=
  [⟨"test-vm", "default", [], ["52:54:00:12:34:56"]⟩]

/-- An `All`-mode WolConfig watching namespace `default` (scenario S1). -/
def cfgAllDefault : WolConfigSpec :=
  ⟨"All", ["default"], none, [], [9], 300⟩

/-- An `Explicit`-mode WolConfig with one mapping (scenario S4). -/
def cfgExplicitDB : WolConfigSpec :=
  ⟨"Explicit", [], none, [⟨"02:F1:EF:00:00:0B", "db-primary", "production"⟩], [9], 300⟩

/-- A WolConfig whose `wolPorts` contain the out-of-range port 0 and whose
`cacheTTL` is 0. -/
def cfgInvalidPort : WolConfigSpec :=
  ⟨"", [], none, [], [0], 0⟩

/-- The empty aggregator state. -/
def emptyAgg : AggState := ⟨[], 0, 0, 0⟩

/-- A StartVM oracle that always succeeds. -/
def oracleOK : String → String → Option String := fun _ _ => none

/-- The mapping table of scenario S1. -/
def sampleTable : List (String × VMInfo) :=
  [("52:54:00:12:34:56", ⟨"test-vm", "default"⟩)]

/-! ## Helper lemmas -/

theorem all_range_iff (n : Nat) (f : Nat → Bool) :
    (List.range n).all f = true ↔ ∀ i < n, f i = true := by
  simp [List.all_eq_true, List.mem_range]

theorem getD_mem_of_lt {b : List Nat} {i : Nat} (h : i < b.length) :
    b.getD i 0 ∈ b := by
  rw [List.getD_eq_getElem?_getD, List.getElem?_eq_getElem h]
  simpa using List.getElem_mem h

theorem getD_take_eq {b : List Nat} {n i : Nat} (h : i < n) :
    (b.take n).getD i 0 = b.getD i 0 := by
  induction b generalizing n i with
  | nil => simp
  | cons x xs ih =>
    cases n with
    | zero => omega
    | succ m =>
      cases i with
      | zero => simp [List.getD]
      | succ j => simpa using ih (by omega)

theorem hexDigit_isLower : ∀ n < 16, isLowerHexDigit (hexDigit n) = true := by
  decide

theorem hexVal_hexDigit : ∀ n < 16, hexVal (hexDigit n) = n := by
  decide

theorem hexPair_val (x : Nat) (hx : x < 256) :
    hexVal (hexDigit (x / 16)) * 16 + hexVal (hexDigit (x % 16)) = x := by
  rw [hexVal_hexDigit _ (by omega), hexVal_hexDigit _ (by omega)]
  omega

theorem list_all_congr {l : List α} {f g : α → Bool} (h : ∀ x ∈ l, f x = g x) :
    l.all f = l.all g := by
  induction l with
  | nil => rfl
  | cons x xs ih =>
    simp only [List.all_cons, h x (List.mem_cons_self x xs),
      ih (fun y hy => h y (List.mem_cons_of_mem x hy))]

theorem formatMAC6_length (b0 b1 b2 b3 b4 b5 : Nat) :
    (formatMAC6 b0 b1 b2 b3 b4 b5).length = 17 := by
  simp [formatMAC6, byteHexChars, String.length]

/-! ## C3 — magic-packet decoder -/

/-- C3: `parseMagicPacket b` succeeds iff `b` has at least 102 bytes, bytes
0..5 are all `0xFF`, and each of the 15 subsequent 6-byte groups equals bytes
6..11; on success the returned MAC is the lowercase colon-separated
17-character rendering of bytes 6..11 (each byte printed as two lowercase hex
digits that decode back to it, with `:` at positions 2, 5, 8, 11, 14), and
bytes beyond offset 102 are ignored. -/
theorem C3_parseMagicPacket (b : List Nat) (hb : ∀ x ∈ b, x < 256) :
    ((parseMagicPacket b).isSome ↔ magicShape b)
    ∧ (∀ s, parseMagicPacket b = some s →
        s = formatMAC6 (b.getD 6 0) (b.getD 7 0) (b.getD 8 0) (b.getD 9 0)
            (b.getD 10 0) (b.getD 11 0)
        ∧ s.length = 17
        ∧ (∀ i < 6, isLowerHexDigit (s.data.getD (3 * i) ' ') = true
             ∧ isLowerHexDigit (s.data.getD (3 * i + 1) ' ') = true
             ∧ hexVal (s.data.getD (3 * i) ' ') * 16 +
                 hexVal (s.data.getD (3 * i + 1) ' ') = b.getD (6 + i) 0)
        ∧ (∀ i < 5, s.data.getD (3 * i + 2) ' ' = ':'))
    ∧ (102 ≤ b.length → parseMagicPacket (b.take 102) = parseMagicPacket b) := by
  refine ⟨?_, ?_, ?_⟩
  · unfold parseMagicPacket
    split_ifs with h1 h2 h3
    · simp only [Option.isSome_none, Bool.false_eq_true, false_iff]
      intro hs
      exact absurd hs.1 (by omega)
    · simp only [Option.isSome_some, true_iff]
      refine ⟨by omega, ?_, ?_⟩
      · intro i hi
        have := (all_range_iff 6 _).mp h2 i hi
        simpa using this
      · intro k hk j hj
        have hrow := (all_range_iff 15 _).mp h3 k hk
        have := (all_range_iff 6 _).mp hrow j hj
        simpa using this
    · simp only [Option.isSome_none, Bool.false_eq_true, false_iff]
      intro hs
      apply h3
      rw [all_range_iff]
      intro k hk
      rw [all_range_iff]
      intro j hj
      simpa using hs.2.2 k hk j hj
    · simp only [Option.isSome_none, Bool.false_eq_true, false_iff]
      intro hs
      apply h2
      rw [all_range_iff]
      intro i hi
      simpa using hs.2.1 i hi
  · intro s hsome
    have hlen : ¬ b.length < 102 := by
      by_contra hcon
      simp [parseMagicPacket, hcon] at hsome
    have hs : s = formatMAC6 (b.getD 6 0) (b.getD 7 0) (b.getD 8 0) (b.getD 9 0)
        (b.getD 10 0) (b.getD 11 0) := by
      unfold parseMagicPacket at hsome
      split_ifs at hsome
      exact (Option.some_inj.mp hsome).symm
    have hlt : ∀ i, 6 + i < b.length → b.getD (6 + i) 0 < 256 := by
      intro i hi
      exact hb _ (getD_mem_of_lt hi)
    refine ⟨hs, by rw [hs]; exact formatMAC6_length _ _ _ _ _ _, ?_, ?_⟩
    · intro i hi
      subst hs
      have hx : b.getD (6 + i) 0 < 256 := hlt i (by omega)
      have hdiv : b.getD (6 + i) 0 / 16 < 16 := by omega
      have hmod : b.getD (6 + i) 0 % 16 < 16 := by omega
      interval_cases i
      all_goals
        exact ⟨hexDigit_isLower _ hdiv, hexDigit_isLower _ hmod, hexPair_val _ hx⟩
    · intro i hi
      subst hs
      interval_cases i
      all_goals rfl
  · intro h102
    have hlen : (b.take 102).length = 102 := by
      rw [List.length_take]
      omega
    unfold parseMagicPacket
    rw [hlen]
    have e1 : ((List.range 6).all fun i => (b.take 102).getD i 0 == 0xFF) =
        ((List.range 6).all fun i => b.getD i 0 == 0xFF) := by
      apply list_all_congr
      intro i hi
      rw [getD_take_eq (by simp at hi; omega)]
    have e2 : ((List.range 15).all fun i => (List.range 6).all fun j =>
          (b.take 102).getD (6 + (i + 1) * 6 + j) 0 == (b.take 102).getD (6 + j) 0) =
        ((List.range 15).all fun i => (List.range 6).all fun j =>
          b.getD (6 + (i + 1) * 6 + j) 0 == b.getD (6 + j) 0) := by
      apply list_all_congr
      intro i hi
      apply list_all_congr
      intro j hj
      simp only [List.mem_range] at hi hj
      rw [getD_take_eq (by omega), getD_take_eq (by omega)]
    rw [e1, e2]
    have e3 : ∀ i, i < 102 → (b.take 102).getD i 0 = b.getD i 0 := by
      intro i hi
      exact getD_take_eq hi
    simp only [show ¬ (102 : Nat) < 102 by omega, if_false,
      show ¬ b.length < 102 by omega,
      e3 6 (by omega), e3 7 (by omega), e3 8 (by omega), e3 9 (by omega),
      e3 10 (by omega), e3 11 (by omega)]

/-- C3 witness: the equivalence instantiated at the sample 102-byte packet,
which decodes successfully. -/
theorem C3_witness :
    ((parseMagicPacket samplePacket).isSome ↔ magicShape samplePacket)
    ∧ (parseMagicPacket samplePacket).isSome = true :=
  ⟨(C3_parseMagicPacket samplePacket (by decide)).1, by decide⟩

/-! ## C8 — raw Ethernet frame handling -/

/-- C8: for frames longer than the 14-byte header (the read loop's guard),
the handler is given a MAC iff the effective EtherType after optional VLAN
stripping is `0x0842`, the destination is the broadcast MAC, and the
effective payload is a valid magic packet; the delivered MAC is the decoder's
output on that payload; and a VLAN-tagged frame whose inner EtherType is not
`0x0842` is dropped. -/
theorem processInnerFrame_eq (dst : List Nat) (ethTy : Nat) (payload : List Nat) :
    processInnerFrame dst ethTy payload =
      if ethTy = 0x0842 ∧ isBroadcastMAC dst = true then parseMagicPacket payload
      else none := by
  unfold processInnerFrame
  by_cases h1 : ethTy = 0x0842
  · by_cases h2 : isBroadcastMAC dst = true
    · rw [if_neg (fun hne => hne h1), if_neg (by rw [h2]; simp), if_pos ⟨h1, h2⟩]
    · rw [Bool.not_eq_true] at h2
      rw [if_neg (fun hne => hne h1), if_pos (by rw [h2]; rfl),
        if_neg (fun hc => by rw [hc.2] at h2; cases h2)]
  · rw [if_pos h1, if_neg (fun hc => h1 hc.1)]

/-- C8: for frames longer than the 14-byte header (the read loop's guard),
the handler is given a MAC iff the effective EtherType after optional VLAN
stripping is `0x0842`, the destination is the broadcast MAC, and the
effective payload is a valid magic packet; the delivered MAC is the decoder's
output on that payload; and a VLAN-tagged frame whose inner EtherType is not
`0x0842` is dropped. -/
theorem C8_processEthernetFrame (frame : List Nat) (h14 : 14 < frame.length) :
    ((processEthernetFrame frame).isSome ↔
      ((effectiveFrame frame).1 = 0x0842 ∧ isBroadcastMAC (frame.take 6) = true ∧
        (parseMagicPacket (effectiveFrame frame).2).isSome))
    ∧ (∀ s, processEthernetFrame frame = some s →
        parseMagicPacket (effectiveFrame frame).2 = some s)
    ∧ (256 * frame.getD 12 0 + frame.getD 13 0 = 0x8100 →
        256 * (frame.drop 14).getD 2 0 + (frame.drop 14).getD 3 0 ≠ 0x0842 →
        processEthernetFrame frame = none) := by
  by_cases hv : 256 * frame.getD 12 0 + frame.getD 13 0 = 0x8100
  · by_cases hlen : (frame.drop 14).length < 4
    · have hproc : processEthernetFrame frame = none := by
        simp only [processEthernetFrame]
        rw [if_pos hv, if_pos hlen]
      have heff : effectiveFrame frame =
          (256 * frame.getD 12 0 + frame.getD 13 0, frame.drop 14) := by
        simp only [effectiveFrame]
        rw [if_neg (fun h => by omega)]
      refine ⟨?_, ?_, ?_⟩
      · rw [hproc, heff]
        simp only [Option.isSome_none, Bool.false_eq_true, false_iff]
        intro h
        rw [hv] at h
        exact absurd h.1 (by norm_num)
      · intro s hs
        rw [hproc] at hs
        exact absurd hs (by simp)
      · intro _ _
        exact hproc
    · have hproc : processEthernetFrame frame = processInnerFrame (frame.take 6)
          (256 * (frame.drop 14).getD 2 0 + (frame.drop 14).getD 3 0)
          ((frame.drop 14).drop 4) := by
        simp only [processEthernetFrame]
        rw [if_pos hv, if_neg hlen]
      have heff : effectiveFrame frame =
          (256 * (frame.drop 14).getD 2 0 + (frame.drop 14).getD 3 0,
            (frame.drop 14).drop 4) := by
        simp only [effectiveFrame]
        rw [if_pos ⟨hv, by omega⟩]
      rw [hproc, heff, processInnerFrame_eq]
      refine ⟨?_, ?_, ?_⟩
      · split_ifs with h
        · exact ⟨fun hx => ⟨h.1, h.2, hx⟩, fun hx => hx.2.2⟩
        · simp only [Option.isSome_none, Bool.false_eq_true, false_iff]
          intro hx
          exact h ⟨hx.1, hx.2.1⟩
      · intro s hs
        split_ifs at hs with h
        exact hs
      · intro _ hin
        rw [if_neg (fun hc => hin hc.1)]
  · have hproc : processEthernetFrame frame = processInnerFrame (frame.take 6)
        (256 * frame.getD 12 0 + frame.getD 13 0) (frame.drop 14) := by
      simp only [processEthernetFrame]
      rw [if_neg hv]
    have heff : effectiveFrame frame =
        (256 * frame.getD 12 0 + frame.getD 13 0, frame.drop 14) := by
      simp only [effectiveFrame]
      rw [if_neg (fun h => hv h.1)]
    rw [hproc, heff, processInnerFrame_eq]
    refine ⟨?_, ?_, ?_⟩
    · split_ifs with h
      · exact ⟨fun hx => ⟨h.1, h.2, hx⟩, fun hx => hx.2.2⟩
      · simp only [Option.isSome_none, Bool.false_eq_true, false_iff]
        intro hx
        exact h ⟨hx.1, hx.2.1⟩
    · intro s hs
      split_ifs at hs with h
      exact hs
    · intro houter _
      exact absurd houter hv

/-- C8 witness: the equivalence instantiated at a concrete broadcast
`0x0842` frame carrying the sample packet, which is accepted. -/
theorem C8_witness :
    ((processEthernetFrame sampleFrame).isSome ↔
      ((effectiveFrame sampleFrame).1 = 0x0842 ∧
        isBroadcastMAC (sampleFrame.take 6) = true ∧
        (parseMagicPacket (effectiveFrame sampleFrame).2).isSome))
    ∧ (processEthernetFrame sampleFrame).isSome = true :=
  ⟨(C8_processEthernetFrame sampleFrame (by decide)).1, by decide⟩

/-! ## Aggregator dedupe lemmas -/

theorem assocFind_assocSet_self (m : List (String × α)) (k : String) (v : α) :
    assocFind (assocSet m k v) k = some v := by
  induction m with
  | nil => simp [assocSet, assocFind]
  | cons p rest ih =>
    obtain ⟨k', v'⟩ := p
    by_cases h : k' = k
    · simp [assocSet, assocFind, h]
    · simp [assocSet, assocFind, h, ih]

theorem checkDuplicate_not_dup (st : AggState) (ev : WOLEvent) (now : Nat)
    (h : isDuplicateEvent st ev now = false) :
    checkDuplicate st ev now = (st, none) := by
  unfold checkDuplicate
  unfold isDuplicateEvent at h
  cases hfind : assocFind st.dedupeMap ev.macAddress with
  | none => simp [hfind]
  | some entry =>
    rw [hfind] at h
    simp only [decide_eq_false_iff_not] at h
    simp [hfind, h]

theorem checkDuplicate_dup (st : AggState) (ev : WOLEvent) (now : Nat)
    (entry : DedupeEntry)
    (hfind : assocFind st.dedupeMap ev.macAddress = some entry)
    (hlt : now - entry.lastSeen < dedupeDuration) :
    checkDuplicate st ev now =
      ({ st with dedupeMap := (assocSet st.dedupeMap ev.macAddress
          ⟨now, entry.count + 1, entry.nodes ++ [ev.nodeName], entry.lastResponse⟩) },
        some { status := .duplicate
               message := "Event already processed recently (seen on " ++
                 toString (entry.count + 1) ++ " nodes)"
               vmInfo := entry.lastResponse.vmInfo
               wasDuplicate := true }) := by
  unfold checkDuplicate
  simp [hfind, hlt]

theorem reportWOLEvent_status_dup (table : List (String × VMInfo))
    (orc : String → String → Option String) (st : AggState) (ev : WOLEvent)
    (now : Nat) (entry : DedupeEntry)
    (hfind : assocFind st.dedupeMap ev.macAddress = some entry)
    (hlt : now - entry.lastSeen < dedupeDuration) :
    (reportWOLEvent table orc st ev now).2.1.status = .duplicate
    ∧ (reportWOLEvent table orc st ev now).2.1.wasDuplicate = true
    ∧ (reportWOLEvent table orc st ev now).2.1.vmInfo = entry.lastResponse.vmInfo
    ∧ (reportWOLEvent table orc st ev now).2.2 = false
    ∧ assocFind (reportWOLEvent table orc st ev now).1.dedupeMap ev.macAddress =
        some ⟨now, entry.count + 1, entry.nodes ++ [ev.nodeName], entry.lastResponse⟩ := by
  have hcd := checkDuplicate_dup { st with packetsTotal := st.packetsTotal + 1 }
    ev now entry hfind hlt
  simp only [reportWOLEvent, hcd]
  refine ⟨?_, ?_, ?_, ?_, ?_⟩ <;>
    first
      | trivial
      | exact assocFind_assocSet_self _ _ _

theorem isDuplicateEvent_of_absent (st : AggState) (ev : WOLEvent) (now : Nat)
    (habsent : assocFind st.dedupeMap ev.macAddress = none) :
    isDuplicateEvent st ev now = false := by
  unfold isDuplicateEvent
  simp [habsent]

theorem reportWOLEvent_fresh (table : List (String × VMInfo))
    (orc : String → String → Option String) (st : AggState) (ev : WOLEvent)
    (now : Nat)
    (hnd : isDuplicateEvent st ev now = false) :
    (reportWOLEvent table orc st ev now).2.2 = (mapperLookup table ev.macAddress).isSome
    ∧ assocFind (reportWOLEvent table orc st ev now).1.dedupeMap ev.macAddress =
        some ⟨now, 1, [ev.nodeName], (reportWOLEvent table orc st ev now).2.1⟩ := by
  have hcd : checkDuplicate { st with packetsTotal := st.packetsTotal + 1 } ev now =
      ({ st with packetsTotal := st.packetsTotal + 1 }, none) :=
    checkDuplicate_not_dup _ ev now hnd
  simp only [reportWOLEvent, hcd]
  cases hl : mapperLookup table ev.macAddress with
  | none => simp [recordEvent, assocFind_assocSet_self]
  | some vi =>
    cases ho : orc vi.ns vi.name with
    | none => simp [ho, recordEvent, assocFind_assocSet_self]
    | some e => simp [ho, recordEvent, assocFind_assocSet_self]

theorem countStarts_cons (p : WOLEventResponse × Bool)
    (l : List (WOLEventResponse × Bool)) :
    countStarts (p :: l) = (if p.2 then 1 else 0) + countStarts l := by
  by_cases h : p.2
  · simp [countStarts, List.filter_cons, h, Nat.add_comm]
  · simp [countStarts, List.filter_cons, h]

theorem countStarts_zero (l : List (WOLEventResponse × Bool))
    (h : ∀ p ∈ l, p.2 = false) : countStarts l = 0 := by
  unfold countStarts
  rw [List.length_eq_zero]
  rw [List.filter_eq_nil_iff]
  intro p hp
  simp [h p hp]

/-- Workhorse induction: starting from a state that already holds an entry
for `mac`, a run of reports for `mac` whose arrival times are chained inside
the sliding window yields only DUPLICATE responses that replay the stored VM
info, never invokes StartVM, and leaves an entry whose `lastSeen` is the last
arrival time. -/
theorem runReports_dup_run (table : List (String × VMInfo))
    (orc : String → String → Option String) (mac : String)
    (vmi : Option RespVMInfo) :
    ∀ (evs : List (WOLEvent × Nat)) (st : AggState) (entry : DedupeEntry),
      assocFind st.dedupeMap mac = some entry →
      entry.lastResponse.vmInfo = vmi →
      (∀ p ∈ evs, (p : WOLEvent × Nat).1.macAddress = mac) →
      chainedWithin entry.lastSeen (evs.map (fun p => p.2)) →
      (∀ p ∈ (runReports table orc st evs).2,
          p.1.status = .duplicate ∧ p.1.wasDuplicate = true ∧
          p.1.vmInfo = vmi ∧ p.2 = false)
      ∧ ∃ entryF, assocFind (runReports table orc st evs).1.dedupeMap mac = some entryF
          ∧ entryF.lastResponse.vmInfo = vmi
          ∧ entryF.lastSeen = (evs.map (fun p => p.2)).getLastD entry.lastSeen := by
  intro evs
  induction evs with
  | nil =>
    intro st entry hfind hvmi hmacs hchain
    refine ⟨by simp [runReports], entry, hfind, hvmi, rfl⟩
  | cons p rest ih =>
    intro st entry hfind hvmi hmacs hchain
    obtain ⟨ev, t⟩ := p
    have hmac : ev.macAddress = mac := hmacs _ (List.mem_cons_self _ _)
    have hstep := reportWOLEvent_status_dup table orc st ev t entry
      (by rw [hmac]; exact hfind) hchain.1
    have hfind' : assocFind (reportWOLEvent table orc st ev t).1.dedupeMap mac =
        some ⟨t, entry.count + 1, entry.nodes ++ [ev.nodeName], entry.lastResponse⟩ := by
      rw [← hmac]
      exact hstep.2.2.2.2
    have hrec := ih (reportWOLEvent table orc st ev t).1
      ⟨t, entry.count + 1, entry.nodes ++ [ev.nodeName], entry.lastResponse⟩
      hfind' hvmi (fun q hq => hmacs q (List.mem_cons_of_mem _ hq)) hchain.2
    constructor
    · intro q hq
      simp only [runReports, List.mem_cons] at hq
      rcases hq with hq | hq
      · subst hq
        exact ⟨hstep.1, hstep.2.1, by rw [hstep.2.2.1]; exact hvmi, hstep.2.2.2.1⟩
      · exact hrec.1 q hq
    · obtain ⟨entryF, h1, h2, h3⟩ := hrec.2
      refine ⟨entryF, ?_, h2, ?_⟩
      · simpa [runReports] using h1
      · rw [h3]
        simp only [List.map_cons]
        rw [List.getLastD_cons]

/-- Monotone arrivals inside one 10 s window started at `t0` are chained. -/
theorem chainedWithin_of_window (t0 : Nat) :
    ∀ (ts : List Nat) (last : Nat), t0 ≤ last →
      (∀ t ∈ ts, t < t0 + dedupeDuration) →
      List.Chain' (fun a b => a ≤ b) (last :: ts) →
      chainedWithin last ts := by
  intro ts
  induction ts with
  | nil =>
    intro last _ _ _
    trivial
  | cons t ts ih =>
    intro last hge hbound hchain
    have h1 : last ≤ t := (List.chain'_cons.mp hchain).1
    refine ⟨?_, ?_⟩
    · have := hbound t (List.mem_cons_self _ _)
      omega
    · exact ih t (le_trans hge h1)
        (fun u hu => hbound u (List.mem_cons_of_mem _ hu))
        (List.chain'_cons.mp hchain).2

/-! ## C2 — global dedupe window -/

/-- C2 counterexample: with no VM mapped to MAC `aa:bb:cc:dd:ee:ff`, two
reports for it 5 s apart (inside one 10 s window) cause zero StartVM
invocations, not exactly one: the claim's "exactly one report causes a
VMStarter.StartVM invocation" fails when the MAC is absent from the
MappingTable. -/
theorem C2_counterexample :
    countStarts (runReports [] oracleOK emptyAgg
      [(⟨"aa:bb:cc:dd:ee:ff", "node-a"⟩, 0), (⟨"aa:bb:cc:dd:ee:ff", "node-b"⟩, 5)]).2 = 0
    ∧ countStarts (runReports [] oracleOK emptyAgg
      [(⟨"aa:bb:cc:dd:ee:ff", "node-a"⟩, 0), (⟨"aa:bb:cc:dd:ee:ff", "node-b"⟩, 5)]).2 ≠ 1 := by
  constructor
  · rfl
  · decide

/-- C2 (amended): for any MAC with no live dedupe entry and any sequence of
reports for it arriving in nondecreasing order within 10 s of the first,
StartVM is invoked for the first report iff the MAC is in the MappingTable —
so at most once, exactly once on a table hit — and every subsequent report is
answered `DUPLICATE`, replaying the VM info of the first returned response
and invoking nothing. -/
theorem C2_windowDedupe (table : List (String × VMInfo))
    (orc : String → String → Option String) (st : AggState) (mac node : String)
    (t0 : Nat) (rest : List (WOLEvent × Nat))
    (habsent : assocFind st.dedupeMap mac = none)
    (hmacs : ∀ p ∈ rest, (p : WOLEvent × Nat).1.macAddress = mac)
    (hwin : ∀ p ∈ rest, (p : WOLEvent × Nat).2 < t0 + dedupeDuration)
    (hmono : List.Chain' (fun a b => a ≤ b) (t0 :: rest.map (fun p => p.2))) :
    ∃ r0 b0 tailRes,
      (runReports table orc st ((⟨mac, node⟩, t0) :: rest)).2 = (r0, b0) :: tailRes
      ∧ b0 = (mapperLookup table mac).isSome
      ∧ countStarts ((r0, b0) :: tailRes) =
          (if (mapperLookup table mac).isSome then 1 else 0)
      ∧ ∀ p ∈ tailRes, p.1.status = .duplicate ∧ p.1.wasDuplicate = true ∧
          p.1.vmInfo = r0.vmInfo ∧ p.2 = false := by
  have hfresh := reportWOLEvent_fresh table orc st ⟨mac, node⟩ t0
    (isDuplicateEvent_of_absent st ⟨mac, node⟩ t0 habsent)
  have hchain : chainedWithin t0 (rest.map (fun p => p.2)) := by
    refine chainedWithin_of_window t0 _ t0 le_rfl ?_ hmono
    intro t ht
    obtain ⟨p, hp, hpt⟩ := List.mem_map.mp ht
    rw [← hpt]
    exact hwin p hp
  have hrun := runReports_dup_run table orc mac
    (reportWOLEvent table orc st ⟨mac, node⟩ t0).2.1.vmInfo rest
    (reportWOLEvent table orc st ⟨mac, node⟩ t0).1
    ⟨t0, 1, [node], (reportWOLEvent table orc st ⟨mac, node⟩ t0).2.1⟩
    hfresh.2 rfl hmacs hchain
  refine ⟨(reportWOLEvent table orc st ⟨mac, node⟩ t0).2.1,
    (reportWOLEvent table orc st ⟨mac, node⟩ t0).2.2,
    (runReports table orc (reportWOLEvent table orc st ⟨mac, node⟩ t0).1 rest).2,
    rfl, hfresh.1, ?_, fun p hp => hrun.1 p hp⟩
  rw [countStarts_cons, countStarts_zero _ (fun p hp => (hrun.1 p hp).2.2.2)]
  rw [hfresh.1]
  cases (mapperLookup table mac).isSome <;> simp

/-- C2 witness: the amended statement instantiated at the S2 scenario — two
reports for the mapped sample MAC from two nodes, 5 s apart. -/
theorem C2_witness :
    ∃ r0 b0 tailRes,
      (runReports sampleTable oracleOK emptyAgg
        ((⟨"52:54:00:12:34:56", "node-a"⟩, 0) ::
          [(⟨"52:54:00:12:34:56", "node-b"⟩, 5)])).2 = (r0, b0) :: tailRes
      ∧ b0 = (mapperLookup sampleTable "52:54:00:12:34:56").isSome
      ∧ countStarts ((r0, b0) :: tailRes) =
          (if (mapperLookup sampleTable "52:54:00:12:34:56").isSome then 1 else 0)
      ∧ ∀ p ∈ tailRes, p.1.status = .duplicate ∧ p.1.wasDuplicate = true ∧
          p.1.vmInfo = r0.vmInfo ∧ p.2 = false :=
  C2_windowDedupe sampleTable oracleOK emptyAgg "52:54:00:12:34:56" "node-a" 0
    [(⟨"52:54:00:12:34:56", "node-b"⟩, 5)] rfl (by decide) (by decide)
    (List.chain'_cons.mpr ⟨by omega, List.chain'_singleton _⟩)

/-! ## C9 — the dedupe window slides -/

/-- C9: starting with no entry for the MAC, for any run of reports whose
consecutive inter-arrival gaps are all under 10 s, only the very first report
can invoke StartVM (it does iff the MAC is mapped); every later report is a
DUPLICATE that invokes nothing, no matter how much total time has elapsed,
and the surviving entry's `lastSeen` is the arrival time of the last report —
the window slides because each duplicate refreshes `lastSeen`. -/
theorem C9_slidingWindow (table : List (String × VMInfo))
    (orc : String → String → Option String) (st : AggState) (mac node : String)
    (t0 : Nat) (rest : List (WOLEvent × Nat))
    (habsent : assocFind st.dedupeMap mac = none)
    (hmacs : ∀ p ∈ rest, (p : WOLEvent × Nat).1.macAddress = mac)
    (hgaps : chainedWithin t0 (rest.map (fun p => p.2))) :
    ∃ r0 b0 tailRes entryF,
      (runReports table orc st ((⟨mac, node⟩, t0) :: rest)).2 = (r0, b0) :: tailRes
      ∧ b0 = (mapperLookup table mac).isSome
      ∧ countStarts tailRes = 0
      ∧ (∀ p ∈ tailRes, p.1.status = .duplicate ∧ p.1.wasDuplicate = true ∧
          p.1.vmInfo = r0.vmInfo ∧ p.2 = false)
      ∧ assocFind (runReports table orc st
          ((⟨mac, node⟩, t0) :: rest)).1.dedupeMap mac = some entryF
      ∧ entryF.lastSeen = (rest.map (fun p => p.2)).getLastD t0 := by
  have hfresh := reportWOLEvent_fresh table orc st ⟨mac, node⟩ t0
    (isDuplicateEvent_of_absent st ⟨mac, node⟩ t0 habsent)
  have hrun := runReports_dup_run table orc mac
    (reportWOLEvent table orc st ⟨mac, node⟩ t0).2.1.vmInfo rest
    (reportWOLEvent table orc st ⟨mac, node⟩ t0).1
    ⟨t0, 1, [node], (reportWOLEvent table orc st ⟨mac, node⟩ t0).2.1⟩
    hfresh.2 rfl hmacs hgaps
  obtain ⟨entryF, hF1, _, hF3⟩ := hrun.2
  exact ⟨(reportWOLEvent table orc st ⟨mac, node⟩ t0).2.1,
    (reportWOLEvent table orc st ⟨mac, node⟩ t0).2.2,
    (runReports table orc (reportWOLEvent table orc st ⟨mac, node⟩ t0).1 rest).2,
    entryF, rfl, hfresh.1,
    countStarts_zero _ (fun p hp => (hrun.1 p hp).2.2.2),
    fun p hp => hrun.1 p hp, hF1, hF3⟩

/-- C9 witness: four reports at times 0, 5, 12, 20 — every gap under 10 s but
total span 20 s, well past one window — instantiating the sliding-window
statement at the mapped sample MAC. -/
theorem C9_witness :
    ∃ r0 b0 tailRes entryF,
      (runReports sampleTable oracleOK emptyAgg
        ((⟨"52:54:00:12:34:56", "node-a"⟩, 0) ::
          [(⟨"52:54:00:12:34:56", "node-b"⟩, 5),
           (⟨"52:54:00:12:34:56", "node-a"⟩, 12),
           (⟨"52:54:00:12:34:56", "node-b"⟩, 20)])).2 = (r0, b0) :: tailRes
      ∧ b0 = (mapperLookup sampleTable "52:54:00:12:34:56").isSome
      ∧ countStarts tailRes = 0
      ∧ (∀ p ∈ tailRes, p.1.status = .duplicate ∧ p.1.wasDuplicate = true ∧
          p.1.vmInfo = r0.vmInfo ∧ p.2 = false)
      ∧ assocFind (runReports sampleTable oracleOK emptyAgg
          ((⟨"52:54:00:12:34:56", "node-a"⟩, 0) ::
            [(⟨"52:54:00:12:34:56", "node-b"⟩, 5),
             (⟨"52:54:00:12:34:56", "node-a"⟩, 12),
             (⟨"52:54:00:12:34:56", "node-b"⟩, 20)])).1.dedupeMap
          "52:54:00:12:34:56" = some entryF
      ∧ entryF.lastSeen = ([5, 12, 20] : List Nat).getLastD 0 :=
  C9_slidingWindow sampleTable oracleOK emptyAgg "52:54:00:12:34:56" "node-a" 0
    [(⟨"52:54:00:12:34:56", "node-b"⟩, 5),
     (⟨"52:54:00:12:34:56", "node-a"⟩, 12),
     (⟨"52:54:00:12:34:56", "node-b"⟩, 20)] rfl (by decide) (by decide)

/-! ## C5 — non-duplicate event handling -/

/-- C5: on a non-duplicate report — table miss gives `VM_NOT_FOUND` with
`wol_errors_total` untouched and no StartVM; a hit with failing StartVM gives
`ERROR` with the VM identity attached and `wol_errors_total` incremented; a
hit with successful StartVM gives `VM_START_INITIATED` with
`wol_vm_started_total` incremented; and in every case the event is recorded
so that a second report for the MAC inside the 10 s window is answered as a
DUPLICATE. -/
theorem C5_reportWOLEvent (table : List (String × VMInfo))
    (orc : String → String → Option String) (st : AggState) (ev : WOLEvent)
    (now : Nat) (hnd : isDuplicateEvent st ev now = false) :
    (mapperLookup table ev.macAddress = none →
        (reportWOLEvent table orc st ev now).2.1.status = .vmNotFound
        ∧ (reportWOLEvent table orc st ev now).1.errorsTotal = st.errorsTotal
        ∧ (reportWOLEvent table orc st ev now).1.vmStartedTotal = st.vmStartedTotal
        ∧ (reportWOLEvent table orc st ev now).2.2 = false)
    ∧ (∀ vi, mapperLookup table ev.macAddress = some vi →
        (∀ e, orc vi.ns vi.name = some e →
            (reportWOLEvent table orc st ev now).2.1.status = .error
            ∧ (reportWOLEvent table orc st ev now).1.errorsTotal = st.errorsTotal + 1
            ∧ (reportWOLEvent table orc st ev now).2.1.vmInfo = some ⟨vi.name, vi.ns, ""⟩
            ∧ (reportWOLEvent table orc st ev now).2.2 = true)
        ∧ (orc vi.ns vi.name = none →
            (reportWOLEvent table orc st ev now).2.1.status = .vmStartInitiated
            ∧ (reportWOLEvent table orc st ev now).1.vmStartedTotal =
                st.vmStartedTotal + 1
            ∧ (reportWOLEvent table orc st ev now).2.2 = true))
    ∧ assocFind (reportWOLEvent table orc st ev now).1.dedupeMap ev.macAddress =
        some ⟨now, 1, [ev.nodeName], (reportWOLEvent table orc st ev now).2.1⟩
    ∧ (∀ (ev' : WOLEvent) (now' : Nat), ev'.macAddress = ev.macAddress →
        now' - now < dedupeDuration →
        (reportWOLEvent table orc
          (reportWOLEvent table orc st ev now).1 ev' now').2.1.status = .duplicate) := by
  have hfresh := reportWOLEvent_fresh table orc st ev now hnd
  have hcd : checkDuplicate { st with packetsTotal := st.packetsTotal + 1 } ev now =
      ({ st with packetsTotal := st.packetsTotal + 1 }, none) :=
    checkDuplicate_not_dup _ ev now hnd
  refine ⟨?_, ?_, hfresh.2, ?_⟩
  · intro hl
    simp only [reportWOLEvent, hcd, hl]
    refine ⟨?_, ?_, ?_, ?_⟩ <;> trivial
  · intro vi hl
    constructor
    · intro e ho
      simp only [reportWOLEvent, hcd, hl, ho]
      refine ⟨?_, ?_, ?_, ?_⟩ <;> trivial
    · intro ho
      simp only [reportWOLEvent, hcd, hl, ho]
      refine ⟨?_, ?_, ?_⟩ <;> trivial
  · intro ev' now' hmac hlt
    have hfind' : assocFind (reportWOLEvent table orc st ev now).1.dedupeMap
        ev'.macAddress = some ⟨now, 1, [ev.nodeName],
          (reportWOLEvent table orc st ev now).2.1⟩ := by
      rw [hmac]
      exact hfresh.2
    exact (reportWOLEvent_status_dup table orc _ ev' now' _ hfind' hlt).1

/-- C5 witness: the S1 scenario — one report for the mapped sample MAC on an
empty dedupe state, with StartVM succeeding. -/
theorem C5_witness :
    (reportWOLEvent sampleTable oracleOK emptyAgg
      ⟨"52:54:00:12:34:56", "node-a"⟩ 0).2.1.status = .vmStartInitiated
    ∧ (reportWOLEvent sampleTable oracleOK emptyAgg
      ⟨"52:54:00:12:34:56", "node-a"⟩ 0).1.vmStartedTotal =
        emptyAgg.vmStartedTotal + 1
    ∧ (reportWOLEvent sampleTable oracleOK emptyAgg
      ⟨"52:54:00:12:34:56", "node-a"⟩ 0).2.2 = true := by
  have h := C5_reportWOLEvent sampleTable oracleOK emptyAgg
    ⟨"52:54:00:12:34:56", "node-a"⟩ 0 (by decide)
  exact (h.2.1 ⟨"test-vm", "default"⟩ (by decide)).2 rfl

/-! ## C1 — OR-merge of all WolConfigs -/

/-- C1 (code bug): scenario S1+S4 — an `All`-mode config whose namespace
holds `default/test-vm` with the sample MAC, together with an
`Explicit`-mode config.  Alone, the `All` config contributes the sample MAC
(first conjunct), but `refreshAllConfigs` installs a table holding only the
explicit mapping: because any explicit mapping switches the synthetic merged
config to `Explicit` mode, the `All`-mode contribution is dropped (second
conjunct), and the sample MAC no longer resolves (third conjunct) —
contradicting the OR-merge the function's own comments promise. -/
theorem C1_refreshAllConfigs_bug :
    refreshMapping sampleCluster cfgAllDefault =
      .ok [("52:54:00:12:34:56", ⟨"test-vm", "default"⟩)]
    ∧ refreshAllConfigs sampleCluster [cfgAllDefault, cfgExplicitDB] =
      .ok [("02:f1:ef:00:00:0b", ⟨"db-primary", "production"⟩)]
    ∧ mapperLookup [("02:f1:ef:00:00:0b", ⟨"db-primary", "production"⟩)]
        "52:54:00:12:34:56" = none := by
  refine ⟨?_, ?_, ?_⟩ <;> rfl

/-! ## C4 — one UDP socket per configured port -/

/-- C4 (code bug): with `--ports=9,7` the flag parses to both ports, but the
agent binds a UDP socket only for the first (`port := ports[0]`, marked
`TODO: multi-port support` in cmd/agent/main.go); port 7 is never bound.  The
four socket options are set on the one socket that is bound. -/
theorem C4_singlePort_bug :
    parsePorts ["9", "7"] = .ok [9, 7]
    ∧ agentBoundUDPPorts ["9", "7"] = .ok [9]
    ∧ ([9] : List Int) ≠ [9, 7]
    ∧ agentSocketOptions =
        ["SO_REUSEADDR", "SO_REUSEPORT", "SO_BROADCAST", "IP_PKTINFO"] := by
  refine ⟨?_, ?_, ?_, ?_⟩
  · rfl
  · rfl
  · decide
  · rfl

/-! ## C10 — StartVM on an already-running VM -/

/-- C10: if the fetched VirtualMachine has a non-nil run strategy and its
status already shows it running (`status.ready`, or a printable status of
`Running` or `Starting`), `StartVM` returns success without issuing any
patch, spawns no restore goroutine, and increments neither
`wol_vm_started_total` nor `wol_errors_total`. -/
theorem C10_startVM_alreadyRunning (vm : KVVM) (patchErr : Option String)
    (rs : RunStrategy) (hrs : vm.runStrategy = some rs)
    (hrun : vm.statusReady = true ∨ vm.printableStatus = "Running" ∨
      vm.printableStatus = "Starting") :
    startVM (.ok vm) patchErr =
      { result := none, patches := [], restoreSpawned := false,
        startedInc := 0, errorsInc := 0 } := by
  have hr : (vm.statusReady ||
      (vm.printableStatus ≠ "" &&
        (vm.printableStatus == "Running" || vm.printableStatus == "Starting"))) = true := by
    rcases hrun with h | h | h
    · simp [h]
    · simp [h]
    · simp [h]
  simp only [startVM, hrs]
  rw [hr]
  simp

/-- C10 witness: a concrete VM with `runStrategy=Always`, `ready=true`,
printable status `Running`. -/
theorem C10_witness :
    startVM (.ok ⟨some .always, none, true, "Running"⟩) none =
      { result := none, patches := [], restoreSpawned := false,
        startedInc := 0, errorsInc := 0 } :=
  C10_startVM_alreadyRunning ⟨some .always, none, true, "Running"⟩ none
    .always rfl (Or.inl rfl)

/-! ## C6 and C7 — validation and the invalid-config reconcile path -/

theorem validateConfig_eq (c : WolConfigSpec) :
    validateConfig c =
      (let c2 : WolConfigSpec := { c with
          discoveryMode := if c.discoveryMode = "" then "All" else c.discoveryMode
          wolPorts := if c.wolPorts = [] then [9] else c.wolPorts }
       match c2.wolPorts.find? (fun p => p < 1 || p > 65535) with
       | some p =>
         (c2, some ("invalid WOL port: " ++ toString p ++ " (must be 1-65535)"))
       | none =>
         let c3 := if c2.cacheTTL = 0 then { c2 with cacheTTL := 300 } else c2
         if c3.cacheTTL < 0 then
           (c3, some ("invalid cache TTL: " ++ toString c3.cacheTTL ++ " (must be >= 0)"))
         else if c3.discoveryMode = "LabelSelector" && c3.vmSelector = none then
           (c3, some "VMSelector is required for LabelSelector discovery mode")
         else if c3.discoveryMode = "Explicit" && c3.explicitMappings = [] then
           (c3, some "ExplicitMappings is required for Explicit discovery mode")
         else (c3, none)) := by
  by_cases h1 : c.discoveryMode = "" <;> by_cases h2 : c.wolPorts = [] <;>
    simp [validateConfig, h1, h2]

theorem validateConfig_of_valid (d : WolConfigSpec)
    (h1 : d.discoveryMode ≠ "") (h2 : d.wolPorts ≠ [])
    (h3 : d.wolPorts.find? (fun p => p < 1 || p > 65535) = none)
    (h4 : d.cacheTTL ≠ 0) (h5 : ¬ d.cacheTTL < 0)
    (h6 : ¬(d.discoveryMode = "LabelSelector" ∧ d.vmSelector = none))
    (h7 : ¬(d.discoveryMode = "Explicit" ∧ d.explicitMappings = [])) :
    validateConfig d = (d, none) := by
  have hb6 : ¬((d.discoveryMode = "LabelSelector" && d.vmSelector = none) = true) := by
    simpa using h6
  have hb7 : ¬((d.discoveryMode = "Explicit" && d.explicitMappings = []) = true) := by
    simpa using h7
  simp only [validateConfig]
  rw [if_neg h1, if_neg h2, h3]
  rw [if_neg h4, if_neg h5, if_neg hb6, if_neg hb7]

/-- C7 counterexample: for the config with `wolPorts=[0]` and `cacheTTL=0`,
validation fails on the port and returns before the TTL default is applied,
so `cacheTTL` is left at 0, not set to 300 — the unconditional "sets cacheTTL
to 300 when 0" fails (the Go function mutates in place and returns at the
first failed check). -/
theorem C7_counterexample :
    cfgInvalidPort.cacheTTL = 0
    ∧ (validateConfig cfgInvalidPort).2 ≠ none
    ∧ (validateConfig cfgInvalidPort).1.cacheTTL = 0
    ∧ (validateConfig cfgInvalidPort).1.cacheTTL ≠ 300 := by
  refine ⟨rfl, ?_, rfl, ?_⟩
  · decide
  · decide

theorem vc_eval_badPort (c : WolConfigSpec)
    (hp : ∃ p ∈ c.wolPorts, p < 1 ∨ p > 65535) :
    (validateConfig c).2 ≠ none
    ∧ (validateConfig c).1.discoveryMode =
        (if c.discoveryMode = "" then "All" else c.discoveryMode)
    ∧ (validateConfig c).1.wolPorts = c.wolPorts
    ∧ (validateConfig c).1.cacheTTL = c.cacheTTL := by
  obtain ⟨p, hmem, hbad⟩ := hp
  have hne : c.wolPorts ≠ [] := by
    intro hE
    rw [hE] at hmem
    simp at hmem
  have hfs : (c.wolPorts.find? (fun p => p < 1 || p > 65535)).isSome := by
    rw [List.find?_isSome]
    exact ⟨p, hmem, by simpa using hbad⟩
  obtain ⟨q, hq⟩ := Option.isSome_iff_exists.mp hfs
  rw [validateConfig_eq]
  simp [hne, hq]

theorem find?_defaultPorts_none (c : WolConfigSpec)
    (hp : ∀ p ∈ c.wolPorts, ¬(p < 1 ∨ p > 65535)) :
    ((if c.wolPorts = [] then [9] else c.wolPorts).find?
      (fun p => p < 1 || p > 65535)) = none := by
  rw [List.find?_eq_none]
  intro p hpm
  by_cases hper : c.wolPorts = []
  · rw [if_pos hper] at hpm
    simp only [List.mem_singleton] at hpm
    subst hpm
    decide
  · rw [if_neg hper] at hpm
    simpa using hp p hpm

theorem vc_eval_ok (c : WolConfigSpec)
    (hp : ∀ p ∈ c.wolPorts, ¬(p < 1 ∨ p > 65535)) :
    validateConfig c =
      ({ discoveryMode := if c.discoveryMode = "" then "All" else c.discoveryMode
         namespaceSelectors := c.namespaceSelectors
         vmSelector := c.vmSelector
         explicitMappings := c.explicitMappings
         wolPorts := if c.wolPorts = [] then [9] else c.wolPorts
         cacheTTL := if c.cacheTTL = 0 then 300 else c.cacheTTL },
       if c.cacheTTL < 0 then
         some ("invalid cache TTL: " ++
           toString (if c.cacheTTL = 0 then (300 : Int) else c.cacheTTL) ++
           " (must be >= 0)")
       else if c.discoveryMode = "LabelSelector" ∧ c.vmSelector = none then
         some "VMSelector is required for LabelSelector discovery mode"
       else if c.discoveryMode = "Explicit" ∧ c.explicitMappings = [] then
         some "ExplicitMappings is required for Explicit discovery mode"
       else none) := by
  have hf := find?_defaultPorts_none c hp
  rw [validateConfig_eq]
  by_cases hm : c.discoveryMode = "" <;> by_cases h0 : c.cacheTTL = 0 <;>
    simp [hf, hm, h0] <;> split_ifs <;> rfl

/-- C7 (amended): `validateConfig` errors exactly when some port is outside
[1, 65535], or `cacheTTL` is negative, or mode `LabelSelector` has no
selector, or mode `Explicit` has no mappings; it always defaults an empty
`discoveryMode` to `All` and empty `wolPorts` to `[9]`; when no port is
invalid (validation does not stop early) it defaults `cacheTTL` 0 to 300; and
it is idempotent on any config it validates successfully. -/
theorem C7_validateConfig (c : WolConfigSpec) :
    ((validateConfig c).2 ≠ none ↔
      ((∃ p ∈ c.wolPorts, p < 1 ∨ p > 65535) ∨ c.cacheTTL < 0 ∨
        (c.discoveryMode = "LabelSelector" ∧ c.vmSelector = none) ∨
        (c.discoveryMode = "Explicit" ∧ c.explicitMappings = [])))
    ∧ (validateConfig c).1.discoveryMode =
        (if c.discoveryMode = "" then "All" else c.discoveryMode)
    ∧ (validateConfig c).1.wolPorts = (if c.wolPorts = [] then [9] else c.wolPorts)
    ∧ ((∀ p ∈ c.wolPorts, 1 ≤ p ∧ p ≤ 65535) →
        (validateConfig c).1.cacheTTL = (if c.cacheTTL = 0 then 300 else c.cacheTTL))
    ∧ (∀ c', validateConfig c = (c', none) → validateConfig c' = (c', none)) := by
  by_cases hp : ∃ p ∈ c.wolPorts, p < 1 ∨ p > 65535
  · -- a bad port: validation stops at the port check
    have h := vc_eval_badPort c hp
    have hne : c.wolPorts ≠ [] := by
      obtain ⟨p, hmem, _⟩ := hp
      intro hE
      rw [hE] at hmem
      simp at hmem
    refine ⟨⟨fun _ => Or.inl hp, fun _ => h.1⟩, h.2.1,
      by rw [h.2.2.1, if_neg hne], ?_, ?_⟩
    · intro hok
      obtain ⟨p, hmem, hbad⟩ := hp
      have := hok p hmem
      omega
    · intro c' hc'
      exact absurd (congrArg Prod.snd hc' ▸ h.1) (by simp)
  · -- all ports in range: validation reaches the TTL and mode checks
    have hp' : ∀ p ∈ c.wolPorts, ¬(p < 1 ∨ p > 65535) := by
      intro p hmem hbad
      exact hp ⟨p, hmem, hbad⟩
    have h := vc_eval_ok c hp'
    refine ⟨?_, by rw [h], by rw [h], fun _ => by rw [h], ?_⟩
    · rw [h]
      simp only [ne_eq]
      split_ifs with h1 h2 h3 <;>
        simp only [Option.some_ne_none, not_false_eq_true, true_iff,
          not_true_eq_false, false_iff, reduceCtorEq, not_or] <;>
        tauto
    · intro c' hc'
      have hB := congrArg Prod.snd hc'
      simp only [h] at hB
      have h1 : ¬ c.cacheTTL < 0 := by
        intro hx
        rw [if_pos hx] at hB
        cases hB
      have h2 : ¬(c.discoveryMode = "LabelSelector" ∧ c.vmSelector = none) := by
        intro hx
        rw [if_neg h1, if_pos hx] at hB
        cases hB
      have h3 : ¬(c.discoveryMode = "Explicit" ∧ c.explicitMappings = []) := by
        intro hx
        rw [if_neg h1, if_neg h2, if_pos hx] at hB
        cases hB
      have hA := congrArg Prod.fst hc'
      simp only [h] at hA
      rw [← hA]
      apply validateConfig_of_valid
      · by_cases hmm : c.discoveryMode = "" <;> simp [hmm]
      · by_cases hpp : c.wolPorts = [] <;> simp [hpp]
      · exact find?_defaultPorts_none c hp'
      · by_cases h00 : c.cacheTTL = 0
        · simp [h00]
        · simp [h00]
      · by_cases h00 : c.cacheTTL = 0
        · simp [h00]
        · simp only [h00, if_false]
          exact h1
      · intro hx
        apply h2
        refine ⟨?_, hx.2⟩
        by_cases hmm : c.discoveryMode = "" <;>
          simp only [hmm, if_true, if_false] at hx
        · exact absurd hx.1 (by decide)
        · exact hx.1
      · intro hx
        apply h3
        refine ⟨?_, hx.2⟩
        by_cases hmm : c.discoveryMode = "" <;>
          simp only [hmm, if_true, if_false] at hx
        · exact absurd hx.1 (by decide)
        · exact hx.1

/-- C7 witness: the fully-empty config is defaulted to
`(All, [9], 300)` and validating the result again leaves it unchanged. -/
theorem C7_witness :
    ((validateConfig ⟨"", [], none, [], [], 0⟩).1.cacheTTL = 300)
    ∧ validateConfig (validateConfig ⟨"", [], none, [], [], 0⟩).1 =
        ((validateConfig ⟨"", [], none, [], [], 0⟩).1, none) := by
  have h := C7_validateConfig ⟨"", [], none, [], [], 0⟩
  constructor
  · have := h.2.2.2.1 (by decide)
    simpa using this
  · exact h.2.2.2.2 _ rfl

/-- C6 counterexample: reconciling the invalid-port config writes
`Ready=False/Reason=InvalidConfig` and returns an empty `ctrl.Result`
TOGETHER WITH the non-nil validation error, and controller-runtime requeues
any work item whose reconciler returned an error — so a further reconcile IS
scheduled, contradicting "does not requeue". -/
theorem C6_counterexample :
    reconcileValidation cfgInvalidPort =
      .invalidConfig false "InvalidConfig" ⟨0, true⟩
    ∧ ctrlRequeues ⟨0, true⟩ = true := ⟨rfl, rfl⟩

/-- C6 (amended): on any validation failure the controller writes
`Ready=False/Reason=InvalidConfig` and returns `ctrl.Result{}` (no
RequeueAfter of its own) together with the non-nil validation error; because
the error is non-nil the framework requeues the item with rate-limited
backoff rather than waiting for the next spec change. -/
theorem C6_invalidConfigPath (c : WolConfigSpec)
    (h : (validateConfig c).2 ≠ none) :
    reconcileValidation c = .invalidConfig false "InvalidConfig" ⟨0, true⟩
    ∧ ctrlRequeues ⟨0, true⟩ = true := by
  refine ⟨?_, rfl⟩
  unfold reconcileValidation
  rcases h2 : validateConfig c with ⟨c', e⟩
  cases e with
  | none => exact absurd (by rw [h2]) h
  | some msg => rfl

/-- C6 witness: the amended statement instantiated at the invalid-port
config. -/
theorem C6_witness :
    reconcileValidation cfgInvalidPort =
      .invalidConfig false "InvalidConfig" ⟨0, true⟩
    ∧ ctrlRequeues ⟨0, true⟩ = true :=
  C6_invalidConfigPath cfgInvalidPort (by decide)

end KubevirtWol
